import Mathlib

/-!
Verification development for the `screening` pipeline of the
offline-resume-parser repository.

The Python sources under `src/screening/` are shallowly embedded here:
pure functions become Lean functions over `ℚ` (Python floats are idealised
as rationals), dictionaries become structures, exceptions become
`Except`/`Option` values, and the two external library calls that the
pipeline makes — `json.loads` and `dateutil.parser.parse` — are abstracted
as oracle parameters (`String → Option _`), since their code is not part
of the repository.  Every definition keeps the structure (and, where Lean
allows, the name) of the Python function it embeds.
-/

namespace Screening

/-! ### Python primitives: rounding, clamping, string operations -/

/-- Model of Python 3 `round` to an integer: round-half-to-even
(banker's rounding), on exact rationals. -/
def pyRoundHalfEven (q : ℚ) : ℤ :=
  if q - (⌊q⌋ : ℚ) < 1/2 then ⌊q⌋
  else if 1/2 < q - (⌊q⌋ : ℚ) then ⌊q⌋ + 1
  else if ⌊q⌋ % 2 = 0 then ⌊q⌋ else ⌊q⌋ + 1

/-- Model of Python `round(q, n)`: round to `n` decimal places. -/
def roundTo (n : ℕ) (q : ℚ) : ℚ :=
  (pyRoundHalfEven (q * 10 ^ n) : ℚ) / 10 ^ n

/-- `max lo (min hi x)`, the clamping idiom used throughout the Python
sources (`BaseAgent._validate_score` and the agents' inline clamps). -/
def pyClamp (lo hi x : ℚ) : ℚ := max lo (min hi x)

/-- Character-list test that `p` occurs as a prefix of `s`
(helper for the substring model of Python's `in` on strings). -/
def listIsPrefixOf : List Char → List Char → Bool
  | [], _ => true
  | _ :: _, [] => false
  | a :: as, b :: bs => a = b && listIsPrefixOf as bs

/-- Character-list test that `p` occurs as a contiguous substring of `s`. -/
def listContainsSub (p : List Char) : List Char → Bool
  | [] => listIsPrefixOf p []
  | c :: rest => listIsPrefixOf p (c :: rest) || listContainsSub p rest

/-- Model of Python's `pat in s` substring test. -/
def strContains (s pat : String) : Bool := listContainsSub pat.data s.data

/-- Model of Python's `str.lower()` (ASCII case folding suffices for the
keyword sets and skill strings the pipeline compares). -/
def pyLower (s : String) : String := ⟨s.data.map Char.toLower⟩

/-- Model of Python's `str.strip()`: drop leading and trailing whitespace. -/
def pyStrip (s : String) : String :=
  ⟨((s.data.dropWhile Char.isWhitespace).reverse.dropWhile Char.isWhitespace).reverse⟩

/-- Fuel-driven worker for `pySplit`; the fuel is an upper bound on the
number of steps, so the definition is structural and kernel-reducible. -/
def splitFuel (pat : List Char) : ℕ → List Char → List Char → List (List Char)
  | 0, acc, s => [acc.reverse ++ s]
  | _ + 1, acc, [] => [acc.reverse]
  | n + 1, acc, c :: rest =>
    if listIsPrefixOf pat (c :: rest) then
      acc.reverse :: splitFuel pat n [] ((c :: rest).drop pat.length)
    else
      splitFuel pat n (c :: acc) rest

/-- Model of Python's `str.split(sep)` for a non-empty separator:
split on every non-overlapping occurrence, left to right. -/
def pySplit (s pat : String) : List String :=
  (splitFuel pat.data (s.data.length + 1) [] s.data).map fun l => ⟨l⟩

/-- Fuel-driven worker for `pyReplace`. -/
def replaceFuel (pat rep : List Char) : ℕ → List Char → List Char
  | 0, s => s
  | _ + 1, [] => []
  | n + 1, c :: rest =>
    if listIsPrefixOf pat (c :: rest) then
      rep ++ replaceFuel pat rep n ((c :: rest).drop pat.length)
    else
      c :: replaceFuel pat rep n rest

/-- Model of Python's `str.replace(pat, rep)` for a non-empty pattern. -/
def pyReplace (s pat rep : String) : String :=
  ⟨replaceFuel pat.data rep.data s.data.length s.data⟩

/-- Worker for `pySplitWS`: split on whitespace runs, discarding empties. -/
def wsSplitAux : List Char → List Char → List String
  | acc, [] => if acc = [] then [] else [⟨acc.reverse⟩]
  | acc, c :: rest =>
    if c.isWhitespace then
      if acc = [] then wsSplitAux [] rest
      else (⟨acc.reverse⟩ : String) :: wsSplitAux [] rest
    else wsSplitAux (c :: acc) rest

/-- Model of Python's argumentless `str.split()`: split on runs of
whitespace, with no empty fields. -/
def pySplitWS (s : String) : List String := wsSplitAux [] s.data

/-! ### Data model (§3 of the spec; dict shapes from the Python sources)

Python dicts are embedded as structures; a key read with
`d.get(key, default)` becomes a plain field (with the default folded into
construction) when the pipeline always supplies a value of that type. -/

/-- A calendar date as far as `calculate_experience_years` uses one:
`dateutil.parser.parse` results are only read through `.year`/`.month`. -/
structure PDate where
  year : ℤ
  month : ℤ
deriving DecidableEq

/-- One entry of a candidate's `experience` list
(`position`, `start_date`, `end_date` free-text strings). -/
structure ExperienceEntry where
  position : String
  startDate : String
  endDate : String
deriving DecidableEq

/-- One entry of a candidate's `projects` list (only `technologies` is
read by the fact extractor). -/
structure Project where
  technologies : List String
deriving DecidableEq

/-- The `skills` sub-dict of a parsed resume (the extractor reads
`technical` and `tools`). -/
structure SkillsSection where
  technical : List String
  tools : List String
deriving DecidableEq

/-- One entry of a candidate's `education` list (only `degree` is read). -/
structure DegreeEntry where
  degree : String
deriving DecidableEq

/-- A parsed resume, restricted to the fields the screening pipeline
reads (`screening/utils/factual_extraction.py`). -/
structure Candidate where
  skills : SkillsSection
  projects : List Project
  experience : List ExperienceEntry
  education : List DegreeEntry
  achievements : List String
deriving DecidableEq

/-- Structured job-description requirements as produced by
`parse_job_description` (`screening/parsers/jd_parser.py`). -/
structure JDRequirements where
  requiredSkills : List String
  preferredSkills : List String
  minExperienceYears : ℚ
  educationRequirements : String
  roleLevel : String
  keyResponsibilities : List String
  cultureIndicators : List String
  domain : String
  mustHaveQualifications : List String
  riskFactorsToWatch : List String
deriving DecidableEq

/-! ### `screening/utils/factual_extraction.py` -/

/-- `extract_skills(candidate)`: union of `skills.technical`,
`skills.tools` and each project's `technologies`; Python's
`list(set(s.strip() for s in skills if s))` becomes filter-out-falsy,
strip, deduplicate.  (Python's `set` iteration order is unspecified; the
embedding fixes one order, and every claim about this list is
order-insensitive.) -/
def extract_skills (c : Candidate) : List String :=
  let skills := c.skills.technical ++ c.skills.tools
    ++ (c.projects.map Project.technologies).flatten
  (((skills.filter fun s => s ≠ "").map pyStrip)).dedup

/-- `match_skills(candidate_skills, required_skills)`: each required
skill is matched by case-insensitive (lowered and stripped) membership in
the candidate's skills; returns `(matched, missing)` in required order. -/
def match_skills (candidateSkills requiredSkills : List String) :
    List String × List String :=
  let candidateLower := candidateSkills.map fun s => pyStrip (pyLower s)
  (requiredSkills.filter fun r => candidateLower.contains (pyStrip (pyLower r)),
   requiredSkills.filter fun r => !candidateLower.contains (pyStrip (pyLower r)))

/-- The date-string cleaning applied before `dateutil` parsing: when the
string contains an en or em dash, replace both by spaces, whitespace-split
and select a token (`[0]` for start dates, `[-1]` for end dates); a
selection from an empty list is Python's `IndexError`, hence `none`. -/
def cleanDashToken (select : List String → Option String) (s : String) :
    Option String :=
  if strContains s "–" || strContains s "—" then
    select (pySplitWS (pyReplace (pyReplace s "–" " ") "—" " "))
  else some s

/-- The body of the `try` block of `calculate_experience_years` for one
experience entry, without the trailing `max`: parse the (cleaned) start
date, resolve `Present`/`current`/`now` end sentinels to `now`, parse the
(cleaned) end date, and return the signed month difference.  `none` is any
exception caught by the `except` clause (parse failure or `IndexError`). -/
def entryMonthsRaw (parseDate : String → Option PDate) (now : PDate)
    (e : ExperienceEntry) : Option ℤ :=
  match cleanDashToken List.head? e.startDate with
  | none => none
  | some startTok =>
    match parseDate startTok with
    | none => none
    | some startDate =>
      let endDateOpt : Option PDate :=
        if ["present", "current", "now"].contains (pyLower e.endDate) then
          some now
        else
          match cleanDashToken List.getLast? e.endDate with
          | none => none
          | some endTok => parseDate endTok
      match endDateOpt with
      | none => none
      | some endDate =>
        some ((endDate.year - startDate.year) * 12 + (endDate.month - startDate.month))

/-- Months contributed by one entry inside the `try` block:
`max(0, months)`.  Still `none` when the entry's dates fail to parse. -/
def entryMonths (parseDate : String → Option PDate) (now : PDate)
    (e : ExperienceEntry) : Option ℤ :=
  (entryMonthsRaw parseDate now e).map fun m => max 0 m

/-- `calculate_experience_years(candidate)`: sum per-entry months, with
the `except` clause substituting 12 months for an entry whose dates fail
to parse, then divide by 12 and round to 1 decimal.  `parseDate` abstracts
`dateutil.parser.parse(_, fuzzy=True)` and `now` abstracts
`datetime.now()`; the Lean function is total because the Python loop body
is entirely inside `try`/`except`. -/
def calculate_experience_years (parseDate : String → Option PDate)
    (now : PDate) (experience : List ExperienceEntry) : ℚ :=
  if experience = [] then 0
  else
    let totalMonths : ℤ :=
      (experience.map fun e => (entryMonths parseDate now e).getD 12).sum
    roundTo 1 ((totalMonths : ℚ) / 12)

/-- High-relevance degree keywords of `check_education_relevance`
(domain `"technical"`, the only domain the pipeline passes). -/
def highRelevanceKeywords : List String :=
  ["computer science", "software engineering", "information technology",
   "cs", "computer engineering"]

/-- Medium-relevance degree keywords of `check_education_relevance`. -/
def mediumRelevanceKeywords : List String :=
  ["engineering", "electronics", "telecommunication", "mathematics",
   "physics", "data science"]

/-- Generic-degree keywords of `check_education_relevance`. -/
def genericDegreeKeywords : List String :=
  ["bachelor", "b.tech", "b.e", "master", "m.tech"]

/-- `check_education_relevance(candidate, "technical")`, returning
`(score, relevant, degrees)`: join the degree strings, lowercase, and look
the text up in the ordered keyword tiers. -/
def check_education_relevance (education : List DegreeEntry) :
    ℚ × Bool × List String :=
  if education = [] then (0, false, [])
  else
    let degrees := education.map DegreeEntry.degree
    let degreesText := pyLower (String.intercalate " " degrees)
    if highRelevanceKeywords.any (fun kw => strContains degreesText kw) then
      (100, true, degrees)
    else if mediumRelevanceKeywords.any (fun kw => strContains degreesText kw) then
      (70, true, degrees)
    else if genericDegreeKeywords.any (fun kw => strContains degreesText kw) then
      (30, false, degrees)
    else
      (10, false, degrees)

/-- The fixed role-relevance keyword set of `check_role_relevance`. -/
def relevantRoleKeywords : List String :=
  ["software", "developer", "engineer", "programmer", "technical",
   "backend", "frontend", "fullstack", "devops", "data"]

/-- The relevant-roles sublist computed by `check_role_relevance`:
positions whose lowered title contains a relevance keyword. -/
def relevantRolesOf (experience : List ExperienceEntry) : List String :=
  (experience.filter fun e =>
    relevantRoleKeywords.any fun kw => strContains (pyLower e.position) kw).map
    ExperienceEntry.position

/-- `check_role_relevance`'s `relevant` flag: some position title contains
a relevance keyword (`False` for an empty experience list, as in the
Python early return). -/
def check_role_relevance (experience : List ExperienceEntry) : Bool :=
  relevantRolesOf experience ≠ []

/-- The factual snapshot returned by `get_factual_baseline`
(fields in source order; `_validation` bookkeeping is not read anywhere). -/
structure FactBaseline where
  candidateSkills : List String
  requiredSkills : List String
  matchedSkills : List String
  missingSkills : List String
  skillMatchPercentage : ℚ
  yearsOfExperience : ℚ
  minRequiredYears : ℚ
  educationScore : ℚ
  educationRelevant : Bool
  degrees : List String
  roleRelevant : Bool
  relevantRoles : List String
  allRoles : List String
  projectCount : ℕ
  achievementCount : ℕ
deriving DecidableEq

/-- `get_factual_baseline(candidate, jd_requirements)`. -/
def get_factual_baseline (parseDate : String → Option PDate) (now : PDate)
    (c : Candidate) (jd : JDRequirements) : FactBaseline :=
  let candidateSkills := extract_skills c
  let requiredSkills := jd.requiredSkills
  let matched := (match_skills candidateSkills requiredSkills).1
  let missing := (match_skills candidateSkills requiredSkills).2
  let skillMatchPercentage : ℚ :=
    if requiredSkills ≠ [] then
      ((matched.length : ℚ) / (requiredSkills.length : ℚ)) * 100
    else 50
  let educationInfo := check_education_relevance c.education
  { candidateSkills := candidateSkills
    requiredSkills := requiredSkills
    matchedSkills := matched
    missingSkills := missing
    skillMatchPercentage := roundTo 1 skillMatchPercentage
    yearsOfExperience := calculate_experience_years parseDate now c.experience
    minRequiredYears := jd.minExperienceYears
    educationScore := educationInfo.1
    educationRelevant := educationInfo.2.1
    degrees := educationInfo.2.2
    roleRelevant := check_role_relevance c.experience
    relevantRoles := relevantRolesOf c.experience
    allRoles := c.experience.map ExperienceEntry.position
    projectCount := c.projects.length
    achievementCount := (c.achievements.filter fun a => a ≠ "").length }

/-! ### `screening/services/ollama_client.py` and
`BaseAgent._query_llm` (`screening/agents/base_agent.py`)

`OllamaClient.query` raises on timeout, connection failure or a non-200
response; `_query_llm` awaits it with no `try`, so those exceptions pass
through.  The `json.loads` of the Python standard library is abstracted as
an oracle `jsonLoads : String → Option LLMDict` (`none` = it raises
`json.JSONDecodeError` on that string). -/

/-- The ways `OllamaClient.query` fails (all re-raised as `Exception`). -/
inductive LLMFailure
  | timeout
  | unreachable
  | apiError
deriving DecidableEq

/-- An exception escaping the embedded Python code. -/
inductive PyError
  | llmFailure (e : LLMFailure)
  | jsonDecode
deriving DecidableEq

/-- The JSON object an agent's `_query_llm` hands back, as a dict with
optional keys: the agents read `score`, `adjustment` and `reasoning` via
`.get` with defaults, so absent keys are `none`/empty. -/
structure LLMDict where
  score : Option ℚ
  adjustment : Option ℚ
  reasoning : Option String
  strengths : List String
  weaknesses : List String
  categoryScores : List (String × ℚ)
deriving DecidableEq

/-- The literal fallback dict of `_query_llm` (its final `else` branch). -/
def fallbackDict : LLMDict :=
  { score := some 50
    adjustment := none
    reasoning := some "Unable to parse LLM response"
    strengths := []
    weaknesses := []
    categoryScores := [] }

/-- `response.split("```json")[1].split("```")[0].strip()`, the
markdown-fence extraction of `_query_llm` and `parse_job_description`. -/
def fenceExtractJson (s : String) : String :=
  pyStrip ((pySplit ((pySplit s "```json").getD 1 "") "```").headD "")

/-- `response.split("```")[1].split("```")[0].strip()`, the plain-fence
extraction of `_query_llm` and `parse_job_description`. -/
def fenceExtract (s : String) : String :=
  pyStrip ((pySplit ((pySplit s "```").getD 1 "") "```").headD "")

/-- `BaseAgent._query_llm(prompt)` given the transport outcome `resp` of
`OllamaClient.query`: a transport exception propagates (no `try` around
the `await`); then `json.loads` on the full response, with the
`JSONDecodeError` handler trying fenced extraction — whose own
`json.loads` is *not* guarded, so its failure propagates — and only the
fence-free case falling back to `fallbackDict`; finally the score key is
clamped by `_validate_score` (default 50 when absent). -/
def queryLLM (jsonLoads : String → Option LLMDict)
    (resp : Except LLMFailure String) : Except PyError LLMDict :=
  match resp with
  | .error e => .error (.llmFailure e)
  | .ok response =>
    let parsed : Except PyError LLMDict :=
      match jsonLoads response with
      | some r => .ok r
      | none =>
        if strContains response "```json" then
          match jsonLoads (fenceExtractJson response) with
          | some r => .ok r
          | none => .error .jsonDecode
        else if strContains response "```" then
          match jsonLoads (fenceExtract response) with
          | some r => .ok r
          | none => .error .jsonDecode
        else .ok fallbackDict
    parsed.map fun r =>
      { r with score := some (pyClamp 0 100 (r.score.getD 50)) }

/-! ### `screening/parsers/jd_parser.py` -/

/-- The "last resort" default structure of `parse_job_description`. -/
def defaultJDRequirements : JDRequirements :=
  { requiredSkills := []
    preferredSkills := []
    minExperienceYears := 0
    educationRequirements := ""
    roleLevel := "mid"
    keyResponsibilities := []
    cultureIndicators := []
    domain := ""
    mustHaveQualifications := []
    riskFactorsToWatch := [] }

/-- `parse_job_description(jd_text, ollama_client)` from the LLM response
text onward (the function quantified over response texts assumes the
transport call returned): `json.loads`, then the same fence-extraction
fallback chain as `_query_llm` — again with the inner `json.loads`
unguarded — and the default structure only when no fence is present. -/
def parse_job_description (jsonLoads : String → Option JDRequirements)
    (response : String) : Except PyError JDRequirements :=
  match jsonLoads response with
  | some r => .ok r
  | none =>
    if strContains response "```json" then
      match jsonLoads (fenceExtractJson response) with
      | some r => .ok r
      | none => .error .jsonDecode
    else if strContains response "```" then
      match jsonLoads (fenceExtract response) with
      | some r => .ok r
      | none => .error .jsonDecode
    else .ok defaultJDRequirements

/-! ### The three scoring agents (`screening/agents/`)

Each agent is embedded as a function of the candidate, the requirements,
and the `LLMDict` obtained from `_query_llm` (the LLM round-trip is
abstracted as that input; `queryLLM` above models how the dict is
produced, and `skillAgentRun` below composes the two). -/

/-- The dict every agent returns (`score`, `reasoning`, `strengths`,
`weaknesses`, `category_scores`).  Dict keys the Python code reads with
defaults are totalised with those defaults (strings via `""`). -/
structure AgentResult where
  score : ℚ
  reasoning : String
  strengths : List String
  weaknesses : List String
  categoryScores : List (String × ℚ)
deriving DecidableEq

/-- `', '.join(xs)`. -/
def joinComma (xs : List String) : String := String.intercalate ", " xs

/-- `SkillAgent.score` after its `_query_llm` call returned `llm`:
baseline `0.6·skill_match + 0.4·education` from the factual baseline, the
LLM adjustment (`0` when absent) clamped to `[-10, 10]`, the sum clamped
to `[0, 100]` and rounded to one decimal. -/
def skillAgentResult (parseDate : String → Option PDate) (now : PDate)
    (c : Candidate) (jd : JDRequirements) (llm : LLMDict) : AgentResult :=
  let facts := get_factual_baseline parseDate now c jd
  let skillScore := facts.skillMatchPercentage
  let educationScore := facts.educationScore
  let baseScore := skillScore * 0.6 + educationScore * 0.4
  let adjustment := max (-10) (min 10 (llm.adjustment.getD 0))
  let finalScore := max 0 (min 100 (baseScore + adjustment))
  { score := roundTo 1 finalScore
    reasoning := "Matched " ++ toString facts.matchedSkills.length ++ "/"
      ++ toString facts.requiredSkills.length ++ " skills. "
      ++ llm.reasoning.getD ""
    strengths :=
      [if facts.matchedSkills ≠ [] then
         "Has required: " ++ joinComma (facts.matchedSkills.take 3)
       else "No matching technical skills",
       "Education: " ++ facts.degrees.headD "Not specified"]
    weaknesses :=
      [if facts.missingSkills ≠ [] then
         "Missing: " ++ joinComma (facts.missingSkills.take 3)
       else "No critical skill gaps"]
    categoryScores :=
      [("skill_match", roundTo 1 skillScore),
       ("education_relevance", educationScore),
       ("baseline", roundTo 1 baseScore),
       ("llm_adjustment", adjustment),
       ("final", roundTo 1 finalScore)] }

/-- The tiered year-score cascade of `ExperienceAgent.score` (the
`if`/`elif` chain on `years` vs `min_required`). -/
def experienceYearScore (years minRequired : ℚ) : ℚ :=
  if minRequired = 0 then min 100 (50 + years * 10)
  else if years ≥ minRequired * 1.5 then 100
  else if years ≥ minRequired then 90
  else if years ≥ minRequired * 0.75 then 70
  else max 20 (years / minRequired * 70)

/-- The deterministic baseline of `ExperienceAgent.score`: the tiered
year score, times 0.6 when the candidate's roles are not relevant and
there is some experience. -/
def experienceBaseline (years minRequired : ℚ) (roleRelevant : Bool) : ℚ :=
  if ¬roleRelevant ∧ years > 0 then experienceYearScore years minRequired * 0.6
  else experienceYearScore years minRequired

/-- `ExperienceAgent.score` after its `_query_llm` call returned `llm`. -/
def experienceAgentResult (parseDate : String → Option PDate) (now : PDate)
    (c : Candidate) (jd : JDRequirements) (llm : LLMDict) : AgentResult :=
  let facts := get_factual_baseline parseDate now c jd
  let years := facts.yearsOfExperience
  let minRequired := facts.minRequiredYears
  let roleRelevant := facts.roleRelevant
  let yearScore := experienceBaseline years minRequired roleRelevant
  let baseScore := yearScore
  let adjustment := max (-10) (min 10 (llm.adjustment.getD 0))
  let finalScore := max 0 (min 100 (baseScore + adjustment))
  { score := roundTo 1 finalScore
    reasoning := toString years ++ " yrs experience (required: "
      ++ toString minRequired ++ "). Roles "
      ++ (if roleRelevant then "relevant" else "NOT relevant") ++ ". "
      ++ llm.reasoning.getD ""
    strengths :=
      ["Has " ++ toString years ++ " years of experience",
       if facts.relevantRoles ≠ [] then
         "Relevant roles: " ++ joinComma (facts.relevantRoles.take 2)
       else "Experience in different domain"]
    weaknesses :=
      [if years < minRequired then
         "Below " ++ toString minRequired ++ " year requirement"
       else "",
       if ¬roleRelevant then "No relevant technical experience" else ""]
    categoryScores :=
      [("years", roundTo 1 yearScore),
       ("baseline", roundTo 1 baseScore),
       ("llm_adjustment", adjustment),
       ("final", roundTo 1 finalScore)] }

/-- `FitAgent.score` after its `_query_llm` call returned `llm`: the
agent returns the parsed dict unchanged, so its score is exactly the
`_validate_score`-clamped value `_query_llm` stored (the clamp of the
LLM-returned score, 50 when absent). -/
def fitAgentResult (llm : LLMDict) : AgentResult :=
  { score := pyClamp 0 100 (llm.score.getD 50)
    reasoning := llm.reasoning.getD ""
    strengths := llm.strengths
    weaknesses := llm.weaknesses
    categoryScores := llm.categoryScores }

/-- `SkillAgent.score` end to end, transport outcome included: when
`_query_llm` raises (transport failure, or fenced JSON that still fails to
parse), the exception escapes `score`, since no agent wraps the call. -/
def skillAgentRun (parseDate : String → Option PDate) (now : PDate)
    (jsonLoads : String → Option LLMDict) (resp : Except LLMFailure String)
    (c : Candidate) (jd : JDRequirements) : Except PyError AgentResult :=
  (queryLLM jsonLoads resp).map (skillAgentResult parseDate now c jd)

/-! ### `screening/utils/scoring.py` and ranking (`screening/main.py`) -/

/-- The category-weight configuration (`WEIGHTS` in
`screening/config.py`: technical 0.40, career 0.35, fit 0.25). -/
structure Weights where
  technical : ℚ
  career : ℚ
  fit : ℚ
deriving DecidableEq

/-- `WEIGHTS` from `screening/config.py`. -/
def WEIGHTS : Weights := { technical := 0.40, career := 0.35, fit := 0.25 }

/-- The value returned by `combine_scores`. -/
structure CombinedScore where
  total : ℚ
  breakdownTechnical : AgentResult
  breakdownCareer : AgentResult
  breakdownFit : AgentResult
  weightedTechnical : ℚ
  weightedCareer : ℚ
  weightedFit : ℚ
deriving DecidableEq

/-- `combine_scores(technical, career, fit, weights)`: weighted sum of
the three agent scores, rounded to 2 decimals, with the full per-agent
breakdown retained. -/
def combine_scores (technical career fit : AgentResult) (w : Weights) :
    CombinedScore :=
  let weightedTech := technical.score * w.technical
  let weightedCareer := career.score * w.career
  let weightedFit := fit.score * w.fit
  { total := roundTo 2 (weightedTech + weightedCareer + weightedFit)
    breakdownTechnical := technical
    breakdownCareer := career
    breakdownFit := fit
    weightedTechnical := roundTo 2 weightedTech
    weightedCareer := roundTo 2 weightedCareer
    weightedFit := roundTo 2 weightedFit }

/-- One element of the list `screen_candidates` returns. -/
structure CandidateResult where
  name : String
  totalScore : ℚ
deriving DecidableEq

/-- The comparison under `sorted(results, key=lambda x: x["total_score"],
reverse=True)`: descending by total score. -/
def byScoreDesc (a b : CandidateResult) : Prop :=
  b.totalScore ≤ a.totalScore

instance : DecidableRel byScoreDesc := fun a b =>
  inferInstanceAs (Decidable (b.totalScore ≤ a.totalScore))

instance : IsTotal CandidateResult byScoreDesc :=
  ⟨fun a b => (le_total b.totalScore a.totalScore)⟩

instance : IsTrans CandidateResult byScoreDesc :=
  ⟨fun _ _ _ hab hbc => le_trans hbc hab⟩

/-- The ranking step of `screen_candidates`: Python's `sorted` is a
stable comparison sort, so any stable sort under the same (total,
transitive) descending comparison computes the same list; the embedding
uses Mathlib's stable `insertionSort`. -/
def rank_candidates (results : List CandidateResult) : List CandidateResult :=
  results.insertionSort byScoreDesc

/-! ### Basic lemmas about the numeric primitives -/

theorem pyRoundHalfEven_nonneg {q : ℚ} (h : 0 ≤ q) : 0 ≤ pyRoundHalfEven q := by
  have hf : (0 : ℤ) ≤ ⌊q⌋ := Int.floor_nonneg.mpr h
  unfold pyRoundHalfEven
  split_ifs <;> omega

theorem pyRoundHalfEven_le {q : ℚ} {m : ℤ} (h : q ≤ (m : ℚ)) :
    pyRoundHalfEven q ≤ m := by
  have hf : ⌊q⌋ ≤ m := by
    have := Int.floor_le_floor h
    simpa using this
  unfold pyRoundHalfEven
  split_ifs with h1 h2 h3
  · exact hf
  · have hq : (⌊q⌋ : ℚ) + 1/2 ≤ q := by linarith
    have : (⌊q⌋ : ℚ) < (m : ℚ) := by linarith
    have : ⌊q⌋ < m := by exact_mod_cast this
    omega
  · exact hf
  · have hq : (⌊q⌋ : ℚ) + 1/2 ≤ q := by linarith
    have : (⌊q⌋ : ℚ) < (m : ℚ) := by linarith
    have : ⌊q⌋ < m := by exact_mod_cast this
    omega

theorem roundTo_nonneg {q : ℚ} (n : ℕ) (h : 0 ≤ q) : 0 ≤ roundTo n q := by
  unfold roundTo
  have h1 : (0 : ℤ) ≤ pyRoundHalfEven (q * 10 ^ n) :=
    pyRoundHalfEven_nonneg (by positivity)
  have h2 : (0 : ℚ) ≤ (pyRoundHalfEven (q * 10 ^ n) : ℚ) := by exact_mod_cast h1
  positivity

theorem roundTo_le {q : ℚ} {m : ℤ} (n : ℕ) (h : q ≤ (m : ℚ)) :
    roundTo n q ≤ (m : ℚ) := by
  unfold roundTo
  have hb : q * 10 ^ n ≤ ((m * 10 ^ n : ℤ) : ℚ) := by
    push_cast
    have : (0 : ℚ) ≤ 10 ^ n := by positivity
    nlinarith
  have h1 : pyRoundHalfEven (q * 10 ^ n) ≤ m * 10 ^ n := pyRoundHalfEven_le hb
  have h2 : (pyRoundHalfEven (q * 10 ^ n) : ℚ) ≤ (m : ℚ) * 10 ^ n := by
    exact_mod_cast h1
  have hp : (0 : ℚ) < 10 ^ n := by positivity
  rw [div_le_iff₀ hp]
  linarith

theorem pyClamp_nonneg (hi x : ℚ) : 0 ≤ pyClamp 0 hi x := le_max_left 0 _

theorem pyClamp_le {lo hi : ℚ} (x : ℚ) (h : lo ≤ hi) : pyClamp lo hi x ≤ hi :=
  max_le h (min_le_left hi x)

theorem roundTo_clamp_mem (n : ℕ) (x : ℚ) :
    0 ≤ roundTo n (pyClamp 0 100 x) ∧ roundTo n (pyClamp 0 100 x) ≤ 100 := by
  constructor
  · exact roundTo_nonneg n (pyClamp_nonneg 100 x)
  · have := roundTo_le (q := pyClamp 0 100 x) (m := 100) n
      (by exact_mod_cast pyClamp_le x (by norm_num))
    simpa using this

/-- The score field of `skillAgentResult`, in clamp form (definitional). -/
theorem skillAgentResult_score (parseDate : String → Option PDate)
    (now : PDate) (c : Candidate) (jd : JDRequirements) (llm : LLMDict) :
    (skillAgentResult parseDate now c jd llm).score =
      roundTo 1 (pyClamp 0 100
        ((get_factual_baseline parseDate now c jd).skillMatchPercentage * 0.6
          + (get_factual_baseline parseDate now c jd).educationScore * 0.4
          + pyClamp (-10) 10 (llm.adjustment.getD 0))) := rfl

/-- The score field of `experienceAgentResult`, in clamp form
(definitional). -/
theorem experienceAgentResult_score (parseDate : String → Option PDate)
    (now : PDate) (c : Candidate) (jd : JDRequirements) (llm : LLMDict) :
    (experienceAgentResult parseDate now c jd llm).score =
      roundTo 1 (pyClamp 0 100
        (experienceBaseline
            (get_factual_baseline parseDate now c jd).yearsOfExperience
            (get_factual_baseline parseDate now c jd).minRequiredYears
            (get_factual_baseline parseDate now c jd).roleRelevant
          + pyClamp (-10) 10 (llm.adjustment.getD 0))) := rfl

/-- The total of `combine_scores` in explicit weighted-sum form
(definitional). -/
theorem combine_scores_total (technical career fit : AgentResult)
    (w : Weights) :
    (combine_scores technical career fit w).total =
      roundTo 2 (technical.score * w.technical + career.score * w.career
        + fit.score * w.fit) := rfl

/-- The matched component of `match_skills`, definitionally. -/
theorem match_skills_matched (candidateSkills requiredSkills : List String) :
    (match_skills candidateSkills requiredSkills).1 =
      requiredSkills.filter fun r =>
        (candidateSkills.map fun s => pyStrip (pyLower s)).contains
          (pyStrip (pyLower r)) := rfl

/-- The `skill_match_percentage` field of `get_factual_baseline`,
definitionally. -/
theorem get_factual_baseline_smp (parseDate : String → Option PDate)
    (now : PDate) (c : Candidate) (jd : JDRequirements) :
    (get_factual_baseline parseDate now c jd).skillMatchPercentage =
      roundTo 1
        (if jd.requiredSkills ≠ [] then
          (((match_skills (extract_skills c) jd.requiredSkills).1.length : ℚ)
            / (jd.requiredSkills.length : ℚ)) * 100
        else 50) := rfl

/-! ### Claim theorems -/

/-- C2: for all inputs (any candidate, requirements, date oracle and LLM
dicts), the scores of `SkillAgent.score`, `ExperienceAgent.score` and
`FitAgent.score` lie in `[0, 100]` (FitAgent's being the clamped
LLM-returned value), and with the configured `WEIGHTS` — which sum to
`1.0` — the `combine_scores` total over those three agent results lies in
`[0, 100]`. -/
theorem C2_score_bounds (parseDate : String → Option PDate) (now : PDate)
    (c : Candidate) (jd : JDRequirements) (llmS llmE llmF : LLMDict) :
    (0 ≤ (skillAgentResult parseDate now c jd llmS).score
      ∧ (skillAgentResult parseDate now c jd llmS).score ≤ 100)
    ∧ (0 ≤ (experienceAgentResult parseDate now c jd llmE).score
      ∧ (experienceAgentResult parseDate now c jd llmE).score ≤ 100)
    ∧ (0 ≤ (fitAgentResult llmF).score ∧ (fitAgentResult llmF).score ≤ 100)
    ∧ WEIGHTS.technical + WEIGHTS.career + WEIGHTS.fit = 1
    ∧ (0 ≤ (combine_scores (skillAgentResult parseDate now c jd llmS)
            (experienceAgentResult parseDate now c jd llmE)
            (fitAgentResult llmF) WEIGHTS).total
      ∧ (combine_scores (skillAgentResult parseDate now c jd llmS)
            (experienceAgentResult parseDate now c jd llmE)
            (fitAgentResult llmF) WEIGHTS).total ≤ 100) := by
  have hS : 0 ≤ (skillAgentResult parseDate now c jd llmS).score
      ∧ (skillAgentResult parseDate now c jd llmS).score ≤ 100 := by
    rw [skillAgentResult_score]; exact roundTo_clamp_mem 1 _
  have hE : 0 ≤ (experienceAgentResult parseDate now c jd llmE).score
      ∧ (experienceAgentResult parseDate now c jd llmE).score ≤ 100 := by
    rw [experienceAgentResult_score]; exact roundTo_clamp_mem 1 _
  have hF : 0 ≤ (fitAgentResult llmF).score
      ∧ (fitAgentResult llmF).score ≤ 100 :=
    ⟨pyClamp_nonneg _ _, pyClamp_le _ (by norm_num)⟩
  refine ⟨hS, hE, hF, by norm_num [WEIGHTS], ?_⟩
  rw [combine_scores_total]
  have hW : WEIGHTS.technical = 0.40 ∧ WEIGHTS.career = 0.35
      ∧ WEIGHTS.fit = 0.25 := ⟨rfl, rfl, rfl⟩
  obtain ⟨hS0, hS1⟩ := hS
  obtain ⟨hE0, hE1⟩ := hE
  obtain ⟨hF0, hF1⟩ := hF
  rw [hW.1, hW.2.1, hW.2.2]
  constructor
  · exact roundTo_nonneg 2 (by nlinarith)
  · have := roundTo_le (m := 100) 2
      (q := (skillAgentResult parseDate now c jd llmS).score * 0.40
        + (experienceAgentResult parseDate now c jd llmE).score * 0.35
        + (fitAgentResult llmF).score * 0.25) (by push_cast; nlinarith)
    simpa using this

/-- C3: `SkillAgent.score` returns `clamp(baseline + clamp(adjustment,
-10, 10), 0, 100)` rounded to one decimal, where `baseline =
0.6·skill_match_percentage + 0.4·education_score` from the factual
baseline and the adjustment is the LLM-provided value (0 when absent);
both clamps are applied regardless of what the model returned (the
adjustment here ranges over arbitrary rationals). -/
theorem C3_skill_agent_score (parseDate : String → Option PDate)
    (now : PDate) (c : Candidate) (jd : JDRequirements) (llm : LLMDict) :
    (skillAgentResult parseDate now c jd llm).score =
      roundTo 1 (pyClamp 0 100
        (0.6 * (get_factual_baseline parseDate now c jd).skillMatchPercentage
          + 0.4 * (get_factual_baseline parseDate now c jd).educationScore
          + pyClamp (-10) 10 (llm.adjustment.getD 0))) := by
  rw [skillAgentResult_score]
  congr 2
  ring

/-- Restatement of claim C4's tier cascade, written from the claim's own
wording, to be compared with the source-derived `experienceYearScore`. -/
def experienceTierSpec (years minRequired : ℚ) : ℚ :=
  if minRequired = 0 then min 100 (50 + years * 10)
  else if years ≥ 1.5 * minRequired then 100
  else if years ≥ minRequired then 90
  else if years ≥ 0.75 * minRequired then 70
  else max 20 ((years / minRequired) * 70)

/-- Restatement of claim C4's baseline, written from the claim's own
wording ("multiplied by 0.6 exactly when role_relevant is false and
years > 0"), to be compared with the source-derived
`experienceBaseline`. -/
def experienceBaselineSpec (years minRequired : ℚ) (roleRelevant : Bool) : ℚ :=
  if roleRelevant = false ∧ years > 0 then
    experienceTierSpec years minRequired * 0.6
  else experienceTierSpec years minRequired

/-- C4: the deterministic baseline of `ExperienceAgent.score` equals the
claim's tiered formula (with the 0.6 multiplier applied exactly when the
role is not relevant and years > 0), and in particular
`min_experience_years = 2`, `years = 3.5`, `role_relevant = true` yields
baseline 100. -/
theorem C4_experience_baseline :
    (∀ (years minRequired : ℚ) (roleRelevant : Bool),
      experienceBaseline years minRequired roleRelevant =
        experienceBaselineSpec years minRequired roleRelevant)
    ∧ experienceBaseline 3.5 2 true = 100 := by
  constructor
  · intro years minRequired roleRelevant
    have htier : experienceYearScore years minRequired =
        experienceTierSpec years minRequired := by
      unfold experienceYearScore experienceTierSpec
      split_ifs <;> first | rfl | linarith
    cases roleRelevant <;>
      simp [experienceBaseline, experienceBaselineSpec, htier]
  · norm_num [experienceBaseline, experienceYearScore]

/-- C5: the factual baseline's `skill_match_percentage` is the number of
required skills matched case-insensitively (lowered and stripped) against
the candidate's extracted skills, divided by the number of required
skills, times 100 and rounded to one decimal, when `required_skills` is
non-empty; and exactly 50 when `required_skills` is empty, regardless of
the candidate's skills. -/
theorem C5_skill_match_percentage (parseDate : String → Option PDate)
    (now : PDate) (c : Candidate) (jd : JDRequirements) :
    (get_factual_baseline parseDate now c jd).skillMatchPercentage =
      if jd.requiredSkills = [] then 50
      else
        roundTo 1
          (((jd.requiredSkills.countP fun r =>
              ((extract_skills c).map fun s => pyStrip (pyLower s)).contains
                (pyStrip (pyLower r))) : ℚ)
            / (jd.requiredSkills.length : ℚ) * 100) := by
  rw [get_factual_baseline_smp, match_skills_matched]
  by_cases h : jd.requiredSkills = []
  · rw [if_neg (by simp [h]), if_pos h]
    norm_num [roundTo, pyRoundHalfEven]
  · rw [if_pos h, if_neg h, List.countP_eq_length_filter]

/-- Concrete oracle: `dateutil.parser.parse(_, fuzzy=True)` on strings it
cannot parse (used below on "13/13/bad", "junk", "huh" and "???", none of
which denote dates, so the real parser raises on each). -/
def unparseableDates : String → Option PDate := fun _ => none

/-- C6: `calculate_experience_years` is total over arbitrary (possibly
malformed) date strings — the whole Python loop body sits inside
`try`/`except`, so the embedding returns a plain rational, never an
error — and equals the summed per-position months divided by 12 and
rounded to one decimal, where a position whose date handling fails
(`entryMonths … = none`) contributes exactly `Option.getD _ 12 = 12`
months; concretely, two positions with unparseable dates yield
`24 / 12 = 2.0` years. -/
theorem C6_experience_years_defensive (parseDate : String → Option PDate)
    (now : PDate) (experience : List ExperienceEntry) :
    calculate_experience_years parseDate now experience =
      roundTo 1
        ((((experience.map fun e =>
              (entryMonths parseDate now e).getD 12).sum : ℤ) : ℚ) / 12)
    ∧ calculate_experience_years unparseableDates ⟨2024, 1⟩
        [⟨"Dev", "13/13/bad", "junk"⟩, ⟨"Dev2", "huh", "???"⟩] = 2 := by
  constructor
  · by_cases h : experience = []
    · subst h
      simp only [calculate_experience_years, if_pos rfl, List.map_nil,
        List.sum_nil, Int.cast_zero, zero_div]
      norm_num [roundTo, pyRoundHalfEven]
    · rw [calculate_experience_years, if_neg h]
  · have hsum :
        ((([⟨"Dev", "13/13/bad", "junk"⟩,
            ⟨"Dev2", "huh", "???"⟩] : List ExperienceEntry).map fun e =>
          (entryMonths unparseableDates ⟨2024, 1⟩ e).getD 12).sum : ℤ) = 24 := by
      decide
    rw [calculate_experience_years, if_neg (by decide), hsum]
    norm_num [roundTo, pyRoundHalfEven]

/-- Concrete oracle: `dateutil.parser.parse(_, fuzzy=True)` on the two
date strings "2021-05" (May 2021) and "2020-05" (May 2020). -/
def demoDates : String → Option PDate := fun s =>
  if s = "2021-05" then some ⟨2021, 5⟩
  else if s = "2020-05" then some ⟨2020, 5⟩
  else none

/-- C10: `calculate_experience_years` is non-negative for every candidate
and every date oracle, because each successfully parsed position
contributes `max 0 months` and each failed one contributes 12; concretely
a position whose end date (May 2020) precedes its start date (May 2021)
contributes 0 months rather than subtracting from the total. -/
theorem C10_experience_years_nonneg :
    (∀ (parseDate : String → Option PDate) (now : PDate)
        (experience : List ExperienceEntry),
      0 ≤ calculate_experience_years parseDate now experience)
    ∧ calculate_experience_years demoDates ⟨2024, 1⟩
        [⟨"Engineer", "2021-05", "2020-05"⟩] = 0 := by
  constructor
  · intro parseDate now experience
    rw [calculate_experience_years]
    split_ifs
    · exact le_refl 0
    · apply roundTo_nonneg
      apply div_nonneg _ (by norm_num)
      have hz : (0 : ℤ) ≤
          (experience.map fun e => (entryMonths parseDate now e).getD 12).sum := by
        apply List.sum_nonneg
        intro x hx
        simp only [List.mem_map] at hx
        obtain ⟨e, _, rfl⟩ := hx
        cases hm : entryMonthsRaw parseDate now e with
        | none => simp [entryMonths, hm]
        | some m =>
          simp only [entryMonths, hm, Option.map_some, Option.getD_some]
          exact le_max_left 0 m
      exact_mod_cast hz
  · have hsum :
        ((([⟨"Engineer", "2021-05", "2020-05"⟩] : List ExperienceEntry).map
          fun e => (entryMonths demoDates ⟨2024, 1⟩ e).getD 12).sum : ℤ) = 0 := by
      decide
    rw [calculate_experience_years, if_neg (by decide), hsum]
    norm_num [roundTo, pyRoundHalfEven]

/-- C7: the list `screen_candidates` returns is non-increasing in
`total_score`: pairwise, every earlier element's score is at least every
later element's (`List.Pairwise` states exactly the claim's
"for every pair of positions i < j"). -/
theorem C7_ranking_sorted (results : List CandidateResult) :
    (rank_candidates results).Pairwise fun a b => b.totalScore ≤ a.totalScore :=
  List.sorted_insertionSort byScoreDesc results

/-- Concrete oracle: `json.loads` on text that is not valid JSON.  It is
only ever applied below to the full response strings
`"I cannot help with that."` and `"```json\nnot json\n```"` and to the
fenced fragment `"not json"`, none of which is a JSON document, so the
real `json.loads` raises `JSONDecodeError` on each. -/
def jsonLoadsNone : String → Option LLMDict := fun _ => none

/-- A resume with every section empty (the pipeline accepts it). -/
def emptyCandidate : Candidate :=
  { skills := { technical := [], tools := [] }
    projects := []
    experience := []
    education := []
    achievements := [] }

/-- C1 counterexample: the claim says that whenever the LLM call fails
(timeout/unreachable) or its text cannot be coerced to JSON, the agent
substitutes the neutral fallback result instead of propagating the
failure.  On the code: (a) a transport timeout makes `SkillAgent.score`
raise to the orchestrator — `_query_llm` has no `try` around the `await`;
and (b) a response whose ```json fence still fails to parse makes the
second, unguarded `json.loads` in `_query_llm` raise — neither path
produces the fallback `AgentResult`. -/
theorem C1_counterexample :
    skillAgentRun unparseableDates ⟨2024, 1⟩ jsonLoadsNone
        (.error .timeout) emptyCandidate defaultJDRequirements =
      .error (.llmFailure .timeout)
    ∧ queryLLM jsonLoadsNone (.ok "```json\nnot json\n```") =
      .error .jsonDecode :=
  ⟨rfl, rfl⟩

/-- C1 as amended: the neutral fallback of `_query_llm` (score 50,
reasoning "Unable to parse LLM response", empty strengths, weaknesses and
category scores) is substituted exactly when the transport call returned
text on which `json.loads` fails and that contains no markdown fence;
transport failures and fenced-but-unparseable responses instead propagate
an exception to the orchestrator (see the counterexample). -/
theorem C1_amended (jsonLoads : String → Option LLMDict) (s : String)
    (h : jsonLoads s = none) (hfj : strContains s "```json" = false)
    (hf : strContains s "```" = false) :
    queryLLM jsonLoads (.ok s) = .ok fallbackDict := by
  have hc : pyClamp 0 100 (50 : ℚ) = 50 := by
    rw [pyClamp, min_eq_right (by norm_num), max_eq_right (by norm_num)]
  simp [queryLLM, h, hfj, hf, fallbackDict, hc, Except.map]

/-- Witness for `C1_amended` at the refusal string of the spec's
testable-property 5. -/
theorem C1_amended_witness :
    jsonLoadsNone "I cannot help with that." = none
    ∧ strContains "I cannot help with that." "```json" = false
    ∧ strContains "I cannot help with that." "```" = false
    ∧ queryLLM jsonLoadsNone (.ok "I cannot help with that.") =
      .ok fallbackDict :=
  ⟨rfl, by decide, by decide,
    C1_amended jsonLoadsNone "I cannot help with that." rfl (by decide)
      (by decide)⟩

/-- Concrete oracle: `json.loads` for the JD parser on text that is not
valid JSON (applied below to `"```json\nnot json\n```"` and, inside the
fallback chain, to `"not json"`; the real `json.loads` raises on both). -/
def jdLoadsNone : String → Option JDRequirements := fun _ => none

/-- C8 failing input: the claim (and the code's own "last resort"
fallback comment) says `parse_job_description` never raises and returns
the documented default on total parse failure, but on a response whose
```json fence still fails to parse, the second, unguarded `json.loads`
raises a `JSONDecodeError` that escapes the function. -/
theorem C8_failing_input :
    parse_job_description jdLoadsNone "```json\nnot json\n```" =
      .error .jsonDecode := rfl

/-- The fence-free half of `parse_job_description`'s intended contract,
which the code does honour: when `json.loads` fails on a response that
contains no markdown fence, the documented default structure (all lists
empty, `min_experience_years = 0`, `role_level = "mid"`) is returned. -/
theorem parse_job_description_default (jsonLoads : String → Option JDRequirements)
    (s : String) (h : jsonLoads s = none)
    (hfj : strContains s "```json" = false)
    (hf : strContains s "```" = false) :
    parse_job_description jsonLoads s = .ok defaultJDRequirements := by
  simp [parse_job_description, h, hfj, hf]

/-- A candidate whose `skills.technical` and `skills.tools` hold the same
skill in two letter cases. -/
def c9candidate : Candidate :=
  { skills := { technical := ["Python"], tools := ["python"] }
    projects := []
    experience := []
    education := []
    achievements := [] }

/-- C9 counterexample: the claim says no two entries of
`candidate_skills` differ only in letter case, but `extract_skills` only
strips and deduplicates exact strings — it never lowercases — so a resume
listing "Python" under technical skills and "python" under tools yields
both entries, which differ only in case. -/
theorem C9_counterexample :
    "Python" ∈ extract_skills c9candidate
    ∧ "python" ∈ extract_skills c9candidate
    ∧ "Python" ≠ "python"
    ∧ pyLower "Python" = pyLower "python" := by
  refine ⟨by decide, by decide, by decide, by decide⟩

/-- C9 as amended: `candidate_skills` is the exact-string-deduplicated
union of the whitespace-stripped non-empty entries of `skills.technical`,
`skills.tools` and every project's `technologies` — each non-empty source
entry appears stripped, and no entry repeats — but entries are not
case-normalised (case folding happens only later, inside
`match_skills`). -/
theorem C9_amended (c : Candidate) :
    (∀ s, s ∈ extract_skills c ↔
      ∃ t ∈ c.skills.technical ++ c.skills.tools
          ++ (c.projects.map Project.technologies).flatten,
        t ≠ "" ∧ s = pyStrip t)
    ∧ (extract_skills c).Nodup := by
  refine ⟨fun s => ?_, List.nodup_dedup _⟩
  simp only [extract_skills, List.mem_dedup, List.mem_map, List.mem_filter,
    decide_eq_true_eq]
  constructor
  · rintro ⟨t, ⟨ht, hne⟩, rfl⟩
    exact ⟨t, ht, hne, rfl⟩
  · rintro ⟨t, ht, hne, rfl⟩
    exact ⟨t, ⟨ht, hne⟩, rfl⟩

end Screening
